import Mathlib

/-!
Shallow embedding of the cover-rendering script (`src/js/script.js`) of the
`perlschool-covers` repository, together with proofs about its text-fitting,
tracking-measurement, color and compositing logic.

Numbers are modelled by `ℚ` (the script's arithmetic on sizes, widths and
scales is exact on the rational inputs the claims concern), the canvas
measurement capability by an abstract function from font specifications and
strings to widths, and a compositing pass by the list of drawing operations it
issues.
-/

namespace Covers

/-- JavaScript `Math.round`: round half towards positive infinity. -/
def jsRound (q : ℚ) : ℤ := ⌊q + 1/2⌋

/-- JavaScript `String.prototype.trim`: strip whitespace from both ends. -/
def jsTrim (s : String) : String :=
  String.mk (((s.data.dropWhile Char.isWhitespace).reverse.dropWhile Char.isWhitespace).reverse)

/-- Characters kept by the script's `replace(/[^0-9a-f]/gi, '')` cleaning step
in `colorLuminance`. -/
def isHexDig (c : Char) : Bool :=
  ('0' ≤ c && c ≤ '9') || ('a' ≤ c && c ≤ 'f') || ('A' ≤ c && c ≤ 'F')

/-- Numeric value of one hexadecimal digit (as consumed by `parseInt(_, 16)`). -/
def hexDigVal (c : Char) : ℕ :=
  if '0' ≤ c && c ≤ '9' then c.toNat - '0'.toNat
  else if 'a' ≤ c && c ≤ 'f' then c.toNat - 'a'.toNat + 10
  else if 'A' ≤ c && c ≤ 'F' then c.toNat - 'A'.toNat + 10
  else 0

/-- Lower-case hexadecimal digit character, as produced by `toString(16)`. -/
def hexDigitChar (n : ℕ) : Char :=
  if n < 10 then Char.ofNat ('0'.toNat + n) else Char.ofNat ('a'.toNat + (n - 10))

/-- Source `("00" + c.toString(16)).slice(-2)` for a channel value `0 ≤ n ≤ 255`:
two lower-case hex digits, zero padded. -/
def toHex2 (n : ℕ) : String := String.mk [hexDigitChar (n / 16), hexDigitChar (n % 16)]

/-- One channel of `colorLuminance`:
`Math.round(Math.min(Math.max(0, c + (c * lum)), 255))` (clamp first, round
second, exactly as the script writes it). -/
def lumChannel (c : ℕ) (lum : ℚ) : ℕ :=
  (jsRound (min (max 0 ((c : ℚ) + (c : ℚ) * lum)) 255)).toNat

/-- The script's `colorLuminance(hex, lum)` lighten/darken helper.

The input is cleaned to its hexadecimal digits; fewer than six digits trigger
the three-digit expansion `hex[0]hex[0]hex[1]hex[1]hex[2]hex[2]`.  With fewer
than three digits the script would read `undefined` characters and emit `NaN`
artifacts; that degenerate path is modelled as `none`. -/
def colorLuminance (hex : String) (lum : ℚ) : Option String :=
  let h := hex.data.filter isHexDig
  let h6? : Option (List Char) :=
    if h.length < 6 then
      match h with
      | a :: b :: c :: _ => some [a, a, b, b, c, c]
      | _ => none
    else some h
  match h6? with
  | none => none
  | some h6 =>
    some ((("#" ++ toHex2 (lumChannel (16 * hexDigVal (h6.getD 0 '0') + hexDigVal (h6.getD 1 '0')) lum))
        ++ toHex2 (lumChannel (16 * hexDigVal (h6.getD 2 '0') + hexDigVal (h6.getD 3 '0')) lum))
        ++ toHex2 (lumChannel (16 * hexDigVal (h6.getD 4 '0') + hexDigVal (h6.getD 5 '0')) lum))

/-- The per-channel formula exactly as the specification words it:
`clamp(0,255, round(channel + channel*delta))` (round first, clamp second).
Stated from the spec for comparison with `lumChannel`. -/
def specClampRound (c : ℕ) (lum : ℚ) : ℕ :=
  (min 255 (max 0 (jsRound ((c : ℚ) + (c : ℚ) * lum)))).toNat

/-- A canvas font specification, `` `${weight} ${size}px '${family}', system-ui` ``,
identified by the three interpolated components. -/
structure FontSpec where
  weight : String
  size : ℚ
  family : String
deriving DecidableEq

/-- The measurement capability of a drawing context: `measureText(text).width`
under a given current font. -/
abbrev Measure := FontSpec → String → ℚ

/-- Source `measureWithTrackingForContext(renderCtx, text, letter)` (and the identical
`measureWithTracking` on the live context), with `measText` the context's
measurement under its current font: zero (falsy) tracking returns the plain
width, otherwise `m.width + letter * Math.max(0, text.length - 1)`. -/
def measureWithTrackingForContext (measText : String → ℚ) (text : String) (letter : ℚ) : ℚ :=
  if letter = 0 then measText text
  else measText text + letter * max 0 ((text.length : ℚ) - 1)

/-- The `while (w > maxWidth && size > minSize)` loop of `fitTextForContext`
(and of the identical `fitText`): `meas` gives the tracked width measured after
resetting the font at a candidate size.  The third component instruments the
number of loop iterations (remeasurements) performed. -/
def fitGo (meas : ℚ → ℚ) (maxWidth minSize : ℚ) (size w : ℚ) (count : ℕ) : ℚ × ℚ × ℕ :=
  if h : maxWidth < w ∧ minSize < size then
    fitGo meas maxWidth minSize (size - 2) (meas (size - 2)) (count + 1)
  else
    (size, w, count)
termination_by (⌈(size - minSize) / 2⌉).toNat
decreasing_by
  have hc : (0 : ℤ) < ⌈(size - minSize) / 2⌉ := Int.lt_ceil.mpr (by push_cast; linarith [h.2])
  have he : ⌈(size - 2 - minSize) / 2⌉ = ⌈(size - minSize) / 2⌉ - 1 := by
    have hq : (size - 2 - minSize) / 2 = (size - minSize) / 2 - 1 := by ring
    rw [hq, Int.ceil_sub_one]
  simp only [he]
  omega

/-- Result of one fit: resolved font size and resolved tracked width. -/
structure FitResult where
  size : ℚ
  width : ℚ
deriving DecidableEq

/-- Tracked width of `text` measured after
`renderCtx.font = ` `` `${weight} ${size}px '${family}', system-ui` ``. -/
def fitMeasureAt (meas : Measure) (family weight : String) (text : String) (letter : ℚ)
    (size : ℚ) : ℚ :=
  measureWithTrackingForContext (meas ⟨weight, size, family⟩) text letter

/-- Source `fitTextForContext(renderCtx, {text, maxWidth, maxSize, minSize, family,
weight, letter})`: start at `size = maxSize`, set the font, measure the tracked
width, then step the size down by 2 while it overflows and stays above the
floor. -/
def fitTextForContext (meas : Measure) (text : String) (maxWidth maxSize minSize : ℚ)
    (family weight : String) (letter : ℚ) : FitResult :=
  let r := fitGo (fitMeasureAt meas family weight text letter) maxWidth minSize
    maxSize (fitMeasureAt meas family weight text letter maxSize) 0
  ⟨r.1, r.2.1⟩

/-- The flat field record read fresh from the form each render:
`tint`, `title1`, `title2`, `subtitle`, `author`. -/
structure Fields where
  tint : String
  title1 : String
  title2 : String
  subtitle : String
  author : String
deriving DecidableEq

/-- The module-level `state` object, restricted to what a compositing pass
reads: presence of the background image, the logo with its intrinsic pixel
dimensions, the two font family names, the native resolution and the display
scale factor. -/
structure RenderState where
  img : Bool
  logo : Option (ℚ × ℚ)
  titleFont : String
  bodyFont : String
  nativeWidth : ℚ
  nativeHeight : ℚ
  scale : ℚ
deriving DecidableEq

/-- One drawing operation issued by a compositing pass.  `fillRect` records
the fill style and the `globalAlpha` in force; `text` records one
`fillText`/tracked-text draw call with its fill style, font, `textBaseline`
and tracking value. -/
inductive Op where
  | fillRect (style : String) (alpha : ℚ) (x y w h : ℚ)
  | drawImage (alpha : ℚ) (blend : String) (x y w h : ℚ)
  | drawLogo (x y w h : ℚ)
  | text (s : String) (x y : ℚ) (fill : String) (font : FontSpec) (baseline : String)
      (letter : ℚ)
deriving DecidableEq

/-- Source `const nativePad = Math.round(nativeW * 0.08)`. -/
def nativePadQ (st : RenderState) : ℚ := (jsRound (st.nativeWidth * (8/100)) : ℤ)

/-- Source `const pad = nativePad * scale`. -/
def padQ (st : RenderState) : ℚ := nativePadQ st * st.scale

/-- Source `const colW = (nativeW - nativePad*2) * scale`. -/
def colWQ (st : RenderState) : ℚ := (st.nativeWidth - nativePadQ st * 2) * st.scale

/-- Source `const titleMax = nativeTitleMax * scale` with `nativeTitleMax = 260`. -/
def titleMaxQ (st : RenderState) : ℚ := 260 * st.scale

/-- Source `const track = -2 * scale`. -/
def trackQ (st : RenderState) : ℚ := -2 * st.scale

/-- Source `const titleFamily = state.titleFont || 'TrueNo-Black'`. -/
def titleFamilyOf (st : RenderState) : String :=
  if st.titleFont = "" then ("TrueNo-Black") else st.titleFont

/-- Source `const bodyFamily = state.bodyFont || 'TrueNo-Book'`. -/
def bodyFamilyOf (st : RenderState) : String :=
  if st.bodyFont = "" then ("TrueNo-Book") else st.bodyFont

/-- Source `let y = pad + 20 * scale`: the vertical cursor before the first text
block (title line 1 top baseline). -/
def yTitle1 (st : RenderState) : ℚ := padQ st + 20 * st.scale

/-- The title-1 fit: `fitTextForContext(renderCtx, {text:title1, maxWidth:colW,
maxSize:titleMax, family:titleFamily, weight:'900', letter:track})` — with the
default `minSize = 24`. -/
def fit1 (meas : Measure) (st : RenderState) (f : Fields) : FitResult :=
  fitTextForContext meas (jsTrim f.title1) (colWQ st) (titleMaxQ st) 24
    (titleFamilyOf st) "900" (trackQ st)

/-- The cursor after the title-1 block: `y += f1.size * 0.95 + 8 * scale`
when title 1 is non-empty. -/
def yAfterTitle1 (meas : Measure) (st : RenderState) (f : Fields) : ℚ :=
  if jsTrim f.title1 = "" then yTitle1 st
  else yTitle1 st + (fit1 meas st f).size * (95/100) + 8 * st.scale

/-- The title-2 fit: `maxSize: Math.round(titleMax*3), minSize: titleMax`,
same column width, weight and tracking as title 1. -/
def fit2 (meas : Measure) (st : RenderState) (f : Fields) : FitResult :=
  fitTextForContext meas (jsTrim f.title2) (colWQ st) ((jsRound (titleMaxQ st * 3) : ℤ) : ℚ)
    (titleMaxQ st) (titleFamilyOf st) "900" (trackQ st)

/-- The cursor after the title-2 block: `y += f2.size * 0.9 + 18 * scale`
when title 2 is non-empty. -/
def yAfterTitle2 (meas : Measure) (st : RenderState) (f : Fields) : ℚ :=
  if jsTrim f.title2 = "" then yAfterTitle1 meas st f
  else yAfterTitle1 meas st f + (fit2 meas st f).size * (9/10) + 18 * st.scale

/-- The subtitle fit: `maxSize: 120 * scale, minSize: 40 * scale`, body
family, normal weight, no tracking. -/
def subFit (meas : Measure) (st : RenderState) (f : Fields) : FitResult :=
  fitTextForContext meas (jsTrim f.subtitle) (colWQ st) (120 * st.scale) (40 * st.scale)
    (bodyFamilyOf st) "normal" 0

/-- Source `renderToContext(renderCtx, targetCanvas)`: the full compositing pass,
returned as the list of drawing operations it issues, in order.  `W`, `H` are
the target canvas dimensions; `meas` is the target context's measurement
capability; `f` is the field record read from the form.  An invalid-dimension
guard makes the pass a no-op. -/
def renderToContext (meas : Measure) (st : RenderState) (W H : ℚ) (f : Fields) : List Op :=
  if W ≤ 0 ∨ H ≤ 0 ∨ st.nativeWidth ≤ 0 ∨ st.nativeHeight ≤ 0 ∨ st.scale ≤ 0 then []
  else
    let tint := f.tint
    let tintStrength : ℚ := 3/10
    let imgOpacity : ℚ := 8/10
    let ink := "#ffffff"
    let bgOps := [Op.fillRect tint 1 0 0 W H]
    let imgOps := if st.img then [Op.drawImage imgOpacity ("multiply") 0 0 W H] else []
    let washOps := [Op.fillRect tint tintStrength 0 0 W H]
    let title1 := jsTrim f.title1
    let title2 := jsTrim f.title2
    let t1Ops :=
      if title1 = "" then []
      else [Op.text title1 (padQ st) (yTitle1 st) ink
        ⟨"900", (fit1 meas st f).size, titleFamilyOf st⟩ "top" (trackQ st)]
    let t2Ops :=
      if title2 = "" then []
      else [Op.text title2 (padQ st) (yAfterTitle1 meas st f) ink
        ⟨"900", (fit2 meas st f).size, titleFamilyOf st⟩ "top" (trackQ st)]
    let sub := jsTrim f.subtitle
    let subOps :=
      if sub = "" then []
      else [Op.text sub (padQ st) (yAfterTitle2 meas st f + 48 * st.scale)
        ((colorLuminance ink (-(6/100))).getD ink)
        ⟨"normal", (subFit meas st f).size, bodyFamilyOf st⟩ "alphabetic" 0]
    let author := jsTrim f.author
    let authorOps :=
      if author = "" then []
      else
        let authorSize := 175 * st.scale
        let textWidth := meas ⟨"normal", authorSize, bodyFamilyOf st⟩ author
        [Op.text author (W - padQ st - textWidth) (H / 2) ink
          ⟨"normal", authorSize, bodyFamilyOf st⟩ "alphabetic" 0]
    let logoOps :=
      match st.logo with
      | some (lw0, lh0) =>
        let margin := 75 * st.scale
        let lw := lw0 * 1 * st.scale
        let lh := lh0 * 1 * st.scale
        [Op.drawLogo (W - margin - lw) (H - margin - lh) lw lh]
      | none => []
    bgOps ++ imgOps ++ washOps ++ t1Ops ++ t2Ops ++ subOps ++ authorOps ++ logoOps

/-- The `try { body } finally { release }` pattern: the release action runs on
the state whether the body returns normally or raises. -/
def tryFinally {α σ : Type} (body : σ → σ × Except Unit α) (release : σ → σ) (s : σ) :
    σ × Except Unit α :=
  let r := body s
  (release r.1, r.2)

/-- Source `exportAtNativeResolution()`: with no native resolution recorded, return
`null` untouched; otherwise remember the original scale, force `state.scale = 1`,
render into a native-resolution target inside `try`, and restore the original
scale in `finally`.  `renderThrows` injects a failure in the export step (the
render or the PNG encoding); the returned trace stands for the data URL. -/
def exportAtNativeResolution (meas : Measure) (st : RenderState) (f : Fields)
    (renderThrows : Bool) : RenderState × Except Unit (Option (List Op)) :=
  if st.nativeWidth = 0 ∨ st.nativeHeight = 0 then
    (st, Except.ok none)
  else
    let originalScale := st.scale
    tryFinally
      (fun s =>
        let s1 : RenderState := { s with scale := 1 }
        if renderThrows then (s1, Except.error ())
        else (s1, Except.ok (some (renderToContext meas s1 st.nativeWidth st.nativeHeight f))))
      (fun s => { s with scale := originalScale })
      st

/-! ### Lemmas about the fit loop -/

/-- If the loop guard fails at entry the loop returns its arguments. -/
theorem fitGo_exit (meas : ℚ → ℚ) (maxWidth minSize size w : ℚ) (count : ℕ)
    (hexit : w ≤ maxWidth ∨ size ≤ minSize) :
    fitGo meas maxWidth minSize size w count = (size, w, count) := by
  rw [fitGo, dif_neg]
  rcases hexit with h | h
  · exact fun hc => absurd h (not_le.mpr hc.1)
  · exact fun hc => absurd h (not_le.mpr hc.2)

/-- Combined invariants of the fit loop: the size never increases; on exit the
text fits or the size is at or below the floor; the size never drops to
`minSize - 2` or lower once above that bound; and the number of loop
iterations (remeasurements) is bounded by `⌈(size - minSize) / 2⌉`. -/
theorem fitGo_spec (meas : ℚ → ℚ) (maxWidth minSize size w : ℚ) (count : ℕ) :
    (fitGo meas maxWidth minSize size w count).1 ≤ size ∧
    ((fitGo meas maxWidth minSize size w count).2.1 ≤ maxWidth ∨
      (fitGo meas maxWidth minSize size w count).1 ≤ minSize) ∧
    (minSize - 2 < size → minSize - 2 < (fitGo meas maxWidth minSize size w count).1) ∧
    (fitGo meas maxWidth minSize size w count).2.2 ≤
      count + (⌈(size - minSize) / 2⌉).toNat := by
  by_cases hg : maxWidth < w ∧ minSize < size
  · rw [fitGo, dif_pos hg]
    have ih := fitGo_spec meas maxWidth minSize (size - 2) (meas (size - 2)) (count + 1)
    have hc : (0 : ℤ) < ⌈(size - minSize) / 2⌉ :=
      Int.lt_ceil.mpr (by push_cast; linarith [hg.2])
    have he : ⌈(size - 2 - minSize) / 2⌉ = ⌈(size - minSize) / 2⌉ - 1 := by
      have hq : (size - 2 - minSize) / 2 = (size - minSize) / 2 - 1 := by ring
      rw [hq, Int.ceil_sub_one]
    refine ⟨le_trans ih.1 (by linarith), ih.2.1, fun _ => ih.2.2.1 (by linarith [hg.2]), ?_⟩
    refine le_trans ih.2.2.2 ?_
    rw [he]
    omega
  · have hexit : w ≤ maxWidth ∨ size ≤ minSize := by
      rw [not_and_or, not_lt, not_lt] at hg
      exact hg
    rw [fitGo_exit meas maxWidth minSize size w count hexit]
    exact ⟨le_refl _, hexit, fun hlt => hlt, Nat.le_add_right _ _⟩
termination_by (⌈(size - minSize) / 2⌉).toNat
decreasing_by
  have hc : (0 : ℤ) < ⌈(size - minSize) / 2⌉ := Int.lt_ceil.mpr (by push_cast; linarith [hg.2])
  have he : ⌈(size - 2 - minSize) / 2⌉ = ⌈(size - minSize) / 2⌉ - 1 := by
    have hq : (size - 2 - minSize) / 2 = (size - minSize) / 2 - 1 := by ring
    rw [hq, Int.ceil_sub_one]
  simp only [he]
  omega

/-- The resolved size never exceeds `maxSize`. -/
theorem fitText_size_le (meas : Measure) (text : String) (maxWidth maxSize minSize : ℚ)
    (family weight : String) (letter : ℚ) :
    (fitTextForContext meas text maxWidth maxSize minSize family weight letter).size ≤ maxSize :=
  (fitGo_spec _ maxWidth minSize maxSize _ 0).1

/-- Text that already fits at `maxSize` resolves to exactly `maxSize` and the
width measured there. -/
theorem fitText_fits (meas : Measure) (text : String) (maxWidth maxSize minSize : ℚ)
    (family weight : String) (letter : ℚ)
    (hfits : fitMeasureAt meas family weight text letter maxSize ≤ maxWidth) :
    fitTextForContext meas text maxWidth maxSize minSize family weight letter =
      ⟨maxSize, fitMeasureAt meas family weight text letter maxSize⟩ := by
  rw [fitTextForContext, fitGo_exit _ _ _ _ _ _ (Or.inl hfits)]

/-- The resolved size stays strictly above `minSize - 2` as long as `maxSize`
does. -/
theorem fitText_above_floor_step (meas : Measure) (text : String)
    (maxWidth maxSize minSize : ℚ) (family weight : String) (letter : ℚ)
    (hstart : minSize - 2 < maxSize) :
    minSize - 2 <
      (fitTextForContext meas text maxWidth maxSize minSize family weight letter).size :=
  (fitGo_spec _ maxWidth minSize maxSize _ 0).2.2.1 hstart

/-- With `maxSize ≤ minSize` the loop never runs and `maxSize` is returned. -/
theorem fitText_floor (meas : Measure) (text : String) (maxWidth maxSize minSize : ℚ)
    (family weight : String) (letter : ℚ) (hle : maxSize ≤ minSize) :
    (fitTextForContext meas text maxWidth maxSize minSize family weight letter).size =
      maxSize := by
  rw [fitTextForContext, fitGo_exit _ _ _ _ _ _ (Or.inr hle)]

/-! ### Claims about the fit solver and the tracking engine -/

/-- C1 (counterexample): the fit operation can return a size strictly below
`minSize`.  With a constant tracked width of 1000, a box of width 10,
`maxSize = 10` and `minSize = 9`, the loop steps 10 → 8 and returns 8 < 9. -/
theorem C1_fit_below_minSize_cex :
    (fitTextForContext (fun _ _ => 1000) ("x") 10 10 9 ("Fam") ("900") 0).size < 9 := by
  rw [fitTextForContext]
  rw [fitGo, dif_pos (by norm_num [fitMeasureAt, measureWithTrackingForContext])]
  rw [fitGo_exit _ _ _ _ _ _ (Or.inr (by norm_num))]
  norm_num

/-- C1 (amended): for every input, the fit operation returns a size never
above `maxSize`; whenever the tracked width measured at `maxSize` already fits
within `maxWidth` it returns exactly `maxSize`; the returned size stays
strictly above `minSize - 2` whenever `maxSize` does (in particular whenever
`maxSize ≥ minSize`), though it may land up to one step below `minSize`
itself; and when `maxSize ≤ minSize` it returns `maxSize` unchanged. -/
theorem C1_fit_size_bounds (meas : Measure) (text : String) (maxWidth maxSize minSize : ℚ)
    (family weight : String) (letter : ℚ) :
    (fitTextForContext meas text maxWidth maxSize minSize family weight letter).size ≤ maxSize ∧
    (fitMeasureAt meas family weight text letter maxSize ≤ maxWidth →
      (fitTextForContext meas text maxWidth maxSize minSize family weight letter).size =
        maxSize) ∧
    (minSize - 2 < maxSize →
      minSize - 2 <
        (fitTextForContext meas text maxWidth maxSize minSize family weight letter).size) ∧
    (maxSize ≤ minSize →
      (fitTextForContext meas text maxWidth maxSize minSize family weight letter).size =
        maxSize) := by
  refine ⟨fitText_size_le meas text maxWidth maxSize minSize family weight letter,
    fun hfits => ?_,
    fitText_above_floor_step meas text maxWidth maxSize minSize family weight letter,
    fitText_floor meas text maxWidth maxSize minSize family weight letter⟩
  rw [fitText_fits meas text maxWidth maxSize minSize family weight letter hfits]

/-- Witness for C1: concrete instantiations discharging each hypothesis. -/
theorem C1_fit_size_bounds_witness :
    (fitTextForContext (fun _ _ => 5) ("ab") 100 30 10 ("F") ("900") 0).size ≤ 30 ∧
    (fitTextForContext (fun _ _ => 5) ("ab") 100 30 10 ("F") ("900") 0).size = 30 ∧
    (10 : ℚ) - 2 < (fitTextForContext (fun _ _ => 5) ("ab") 100 30 10 ("F") ("900") 0).size ∧
    (fitTextForContext (fun _ _ => 5) ("ab") 100 7 10 ("F") ("900") 0).size = 7 :=
  ⟨(C1_fit_size_bounds (fun _ _ => 5) ("ab") 100 30 10 ("F") ("900") 0).1,
    (C1_fit_size_bounds (fun _ _ => 5) ("ab") 100 30 10 ("F") ("900") 0).2.1
      (by norm_num [fitMeasureAt, measureWithTrackingForContext]),
    (C1_fit_size_bounds (fun _ _ => 5) ("ab") 100 30 10 ("F") ("900") 0).2.2.1 (by norm_num),
    (C1_fit_size_bounds (fun _ _ => 5) ("ab") 100 7 10 ("F") ("900") 0).2.2.2 (by norm_num)⟩

/-- C3: zero tracking returns the plain measured width of the whole string;
non-zero tracking returns `measure(text) + letter * max(0, length - 1)`, which
is not the sum of individually measured glyph widths: a measure exists on
which the two disagree. -/
theorem C3_measure_tracked_formula :
    (∀ (m : String → ℚ) (text : String),
      measureWithTrackingForContext m text 0 = m text) ∧
    (∀ (m : String → ℚ) (text : String) (letter : ℚ), letter ≠ 0 →
      measureWithTrackingForContext m text letter =
        m text + letter * max 0 ((text.length : ℚ) - 1)) ∧
    (∃ (m : String → ℚ) (text : String) (letter : ℚ), letter ≠ 0 ∧
      measureWithTrackingForContext m text letter ≠
        (text.data.map fun ch => m (String.mk [ch])).sum +
          letter * ((text.length : ℚ) - 1)) := by
  refine ⟨fun m text => by rw [measureWithTrackingForContext, if_pos rfl],
    fun m text letter h => by rw [measureWithTrackingForContext, if_neg h],
    ⟨fun s => 10 * (2 - (s.length : ℚ)), "ab", 1, one_ne_zero, ?_⟩⟩
  rw [measureWithTrackingForContext, if_neg one_ne_zero]
  norm_num [String.length]

/-- Witness for C3: the non-zero-tracking branch at a concrete input. -/
theorem C3_measure_tracked_formula_witness :
    measureWithTrackingForContext (fun _ => 7) ("ab") 3 =
      7 + 3 * max 0 ((("ab").length : ℚ) - 1) :=
  C3_measure_tracked_formula.2.1 (fun _ => 7) ("ab") 3 (by norm_num)

/-- C8: for fixed text of length at least 1 and a fixed measure (fixed font),
the tracked width is monotonically non-decreasing in the tracking value,
including through the zero-tracking special case. -/
theorem C8_measure_tracked_mono (m : String → ℚ) (text : String)
    (hlen : 1 ≤ text.length) (l1 l2 : ℚ) (hle : l1 ≤ l2) :
    measureWithTrackingForContext m text l1 ≤ measureWithTrackingForContext m text l2 := by
  have hnn : (0 : ℚ) ≤ (text.length : ℚ) - 1 := by
    have : (1 : ℚ) ≤ (text.length : ℚ) := by exact_mod_cast hlen
    linarith
  have hmax : max 0 ((text.length : ℚ) - 1) = (text.length : ℚ) - 1 := max_eq_right hnn
  rw [measureWithTrackingForContext, measureWithTrackingForContext]
  by_cases h1 : l1 = 0
  · by_cases h2 : l2 = 0
    · rw [if_pos h1, if_pos h2]
    · rw [if_pos h1, if_neg h2, hmax]
      nlinarith [hle, hnn]
  · by_cases h2 : l2 = 0
    · rw [if_neg h1, if_pos h2, hmax]
      nlinarith [hle, hnn]
    · rw [if_neg h1, if_neg h2, hmax]
      nlinarith [mul_le_mul_of_nonneg_right hle hnn]

/-- Witness for C8: monotonicity at a concrete text and tracking pair. -/
theorem C8_measure_tracked_mono_witness :
    measureWithTrackingForContext (fun _ => 4) ("ab") 1 ≤
      measureWithTrackingForContext (fun _ => 4) ("ab") 2 :=
  C8_measure_tracked_mono (fun _ => 4) ("ab") (by norm_num [String.length]) 1 2 (by norm_num)

/-- C9: the fit loop (as started by `fitTextForContext`) always terminates
with either a fitting width or a size at or below the floor; the number of
loop iterations (remeasurements after the initial one) is bounded by
`⌈(maxSize - minSize) / 2⌉`; and when `maxSize ≤ minSize` it returns
immediately — in which case (and in general at the floor) the returned width
may still exceed `maxWidth`, witnessed concretely. -/
theorem C9_fit_loop_terminates (meas : Measure) (text : String)
    (maxWidth maxSize minSize : ℚ) (family weight : String) (letter : ℚ) :
    (fitTextForContext meas text maxWidth maxSize minSize family weight letter =
      ⟨(fitGo (fitMeasureAt meas family weight text letter) maxWidth minSize maxSize
          (fitMeasureAt meas family weight text letter maxSize) 0).1,
        (fitGo (fitMeasureAt meas family weight text letter) maxWidth minSize maxSize
          (fitMeasureAt meas family weight text letter maxSize) 0).2.1⟩) ∧
    ((fitGo (fitMeasureAt meas family weight text letter) maxWidth minSize maxSize
        (fitMeasureAt meas family weight text letter maxSize) 0).2.1 ≤ maxWidth ∨
      (fitGo (fitMeasureAt meas family weight text letter) maxWidth minSize maxSize
        (fitMeasureAt meas family weight text letter maxSize) 0).1 ≤ minSize) ∧
    ((fitGo (fitMeasureAt meas family weight text letter) maxWidth minSize maxSize
        (fitMeasureAt meas family weight text letter maxSize) 0).2.2 ≤
      (⌈(maxSize - minSize) / 2⌉).toNat) ∧
    (maxSize ≤ minSize →
      fitGo (fitMeasureAt meas family weight text letter) maxWidth minSize maxSize
        (fitMeasureAt meas family weight text letter maxSize) 0 =
        (maxSize, fitMeasureAt meas family weight text letter maxSize, 0)) ∧
    (∃ (meas2 : ℚ → ℚ) (mw2 mx2 mn2 : ℚ),
      mw2 < (fitGo meas2 mw2 mn2 mx2 (meas2 mx2) 0).2.1 ∧
      (fitGo meas2 mw2 mn2 mx2 (meas2 mx2) 0).1 ≤ mn2) := by
  refine ⟨rfl,
    (fitGo_spec _ maxWidth minSize maxSize _ 0).2.1,
    le_trans (fitGo_spec _ maxWidth minSize maxSize _ 0).2.2.2 (by omega),
    fun hle => fitGo_exit _ maxWidth minSize maxSize _ 0 (Or.inr hle),
    fun _ => 100, 10, 5, 5, ?_, ?_⟩
  · rw [fitGo_exit _ _ _ _ _ _ (Or.inr le_rfl)]
    norm_num
  · rw [fitGo_exit _ _ _ _ _ _ (Or.inr le_rfl)]

/-- Witness for C9: the immediate-return clause at `maxSize = 3 ≤ 5 = minSize`. -/
theorem C9_fit_loop_terminates_witness :
    fitGo (fitMeasureAt (fun _ _ => 8) ("t") ("900") ("ab") 0) 1 5 3
      (fitMeasureAt (fun _ _ => 8) ("t") ("900") ("ab") 0 3) 0 =
      (3, fitMeasureAt (fun _ _ => 8) ("t") ("900") ("ab") 0 3, 0) :=
  (C9_fit_loop_terminates (fun _ _ => 8) ("ab") 1 3 5 ("t") ("900") 0).2.2.2.1 (by norm_num)

/-! ### Lemmas about the color helper -/

/-- Clamp-then-round (the code's order) agrees with round-then-clamp (the
specification's wording) on every channel value and delta. -/
theorem lumChannel_eq_spec (c : ℕ) (lum : ℚ) : lumChannel c lum = specClampRound c lum := by
  rw [lumChannel, specClampRound, jsRound, jsRound]
  rcases le_total ((c : ℚ) + (c : ℚ) * lum) 0 with h0 | h0
  · rw [max_eq_left h0, min_eq_left (by norm_num : (0 : ℚ) ≤ 255)]
    have hj : ⌊(c : ℚ) + (c : ℚ) * lum + 1/2⌋ ≤ 0 := by
      have hmono : ⌊(c : ℚ) + (c : ℚ) * lum + 1/2⌋ ≤ ⌊(0 : ℚ) + 1/2⌋ :=
        Int.floor_le_floor (by linarith)
      have hz : ⌊(0 : ℚ) + 1/2⌋ = 0 := by norm_num
      omega
    rw [max_eq_left hj]
    norm_num
  · rcases le_total ((c : ℚ) + (c : ℚ) * lum) 255 with h255 | h255
    · rw [max_eq_right h0, min_eq_left h255]
      have hj0 : 0 ≤ ⌊(c : ℚ) + (c : ℚ) * lum + 1/2⌋ :=
        Int.le_floor.mpr (by push_cast; linarith)
      have hj255 : ⌊(c : ℚ) + (c : ℚ) * lum + 1/2⌋ ≤ 255 := by
        have hmono : ⌊(c : ℚ) + (c : ℚ) * lum + 1/2⌋ ≤ ⌊(255 : ℚ) + 1/2⌋ :=
          Int.floor_le_floor (by linarith)
        have hz : ⌊(255 : ℚ) + 1/2⌋ = 255 := by norm_num
        omega
      rw [max_eq_right hj0, min_eq_right hj255]
    · rw [max_eq_right (le_trans (by norm_num : (0:ℚ) ≤ 255) h255),
        min_eq_right h255]
      have hj255 : 255 ≤ ⌊(c : ℚ) + (c : ℚ) * lum + 1/2⌋ := by
        have hmono : ⌊(255 : ℚ) + 1/2⌋ ≤ ⌊(c : ℚ) + (c : ℚ) * lum + 1/2⌋ :=
          Int.floor_le_floor (by linarith)
        have hz : ⌊(255 : ℚ) + 1/2⌋ = 255 := by norm_num
        omega
      rw [max_eq_right (by omega : (0:ℤ) ≤ ⌊(c : ℚ) + (c : ℚ) * lum + 1/2⌋),
        min_eq_left hj255]
      norm_num

/-- Evaluation of `colorLuminance` on an input that cleans to six hex digits. -/
theorem colorLuminance_six (hex : String) (lum : ℚ) (a b c d e f' : Char)
    (hf : hex.data.filter isHexDig = [a, b, c, d, e, f']) :
    colorLuminance hex lum =
      some ((("#" ++ toHex2 (lumChannel (16 * hexDigVal a + hexDigVal b) lum))
        ++ toHex2 (lumChannel (16 * hexDigVal c + hexDigVal d) lum))
        ++ toHex2 (lumChannel (16 * hexDigVal e + hexDigVal f') lum)) := by
  rw [colorLuminance]
  simp [hf, List.getD]

/-- Evaluation of `colorLuminance` on an input that cleans to three hex
digits: each digit is doubled before the channels are read. -/
theorem colorLuminance_three (hex : String) (lum : ℚ) (a b c : Char)
    (hf : hex.data.filter isHexDig = [a, b, c]) :
    colorLuminance hex lum =
      some ((("#" ++ toHex2 (lumChannel (16 * hexDigVal a + hexDigVal a) lum))
        ++ toHex2 (lumChannel (16 * hexDigVal b + hexDigVal b) lum))
        ++ toHex2 (lumChannel (16 * hexDigVal c + hexDigVal c) lum)) := by
  rw [colorLuminance]
  simp [hf, List.getD]

/-- The white ink dimmed for the subtitle: `colorLuminance('#ffffff', -0.06)`
is `#f0f0f0` (channel 255 becomes `round(239.7) = 240`). -/
theorem colorLuminance_white_dim :
    colorLuminance ("#ffffff") (-(6/100)) = some ("#f0f0f0") := by
  have h255 : lumChannel 255 (-(6/100)) = 240 := by
    norm_num [lumChannel, jsRound]
    decide
  rw [colorLuminance_six ("#ffffff") (-(6/100)) 'f' 'f' 'f' 'f' 'f' 'f' (by decide)]
  have hv : 16 * hexDigVal 'f' + hexDigVal 'f' = 255 := by decide
  rw [hv, h255]
  decide

/-- C6: the color luminance helper computes, per RGB channel of a 3- or
6-digit hex color, `clamp(0,255, round(channel + channel*delta))` (the code's
clamp-before-round order agrees with this for every channel and delta) and
re-encodes zero-padded; `colorLuminance("#ffffff", -0.06)` is `#f0f0f0`,
strictly darker than `#ffffff` with the pre-`toNat` channel value non-negative;
and `colorLuminance("#000000", x)` is `#000000` for every `x ∈ [-1, 0]`. -/
theorem C6_color_luminance :
    (∀ (c : ℕ) (lum : ℚ), lumChannel c lum = specClampRound c lum) ∧
    (∀ (hex : String) (lum : ℚ) (a b c d e f' : Char),
      hex.data.filter isHexDig = [a, b, c, d, e, f'] →
      colorLuminance hex lum =
        some ((("#" ++ toHex2 (specClampRound (16 * hexDigVal a + hexDigVal b) lum))
          ++ toHex2 (specClampRound (16 * hexDigVal c + hexDigVal d) lum))
          ++ toHex2 (specClampRound (16 * hexDigVal e + hexDigVal f') lum))) ∧
    (∀ (hex : String) (lum : ℚ) (a b c : Char),
      hex.data.filter isHexDig = [a, b, c] →
      colorLuminance hex lum =
        some ((("#" ++ toHex2 (specClampRound (16 * hexDigVal a + hexDigVal a) lum))
          ++ toHex2 (specClampRound (16 * hexDigVal b + hexDigVal b) lum))
          ++ toHex2 (specClampRound (16 * hexDigVal c + hexDigVal c) lum))) ∧
    (colorLuminance ("#ffffff") (-(6/100)) = some ("#f0f0f0") ∧
      lumChannel 255 (-(6/100)) < 255 ∧
      (0 : ℤ) ≤ jsRound (min (max 0 ((255 : ℚ) + (255 : ℚ) * (-(6/100)))) 255)) ∧
    (∀ x : ℚ, -1 ≤ x → x ≤ 0 → colorLuminance ("#000000") x = some ("#000000")) := by
  have hchan : lumChannel 255 (-(6/100)) = 240 := by
    norm_num [lumChannel, jsRound]
    decide
  refine ⟨lumChannel_eq_spec,
    fun hex lum a b c d e f' hf => by
      rw [colorLuminance_six hex lum a b c d e f' hf, lumChannel_eq_spec,
        lumChannel_eq_spec, lumChannel_eq_spec],
    fun hex lum a b c hf => by
      rw [colorLuminance_three hex lum a b c hf, lumChannel_eq_spec,
        lumChannel_eq_spec, lumChannel_eq_spec],
    ⟨colorLuminance_white_dim, by rw [hchan]; norm_num, by norm_num [jsRound]⟩,
    fun x hx1 hx0 => ?_⟩
  have hzero : lumChannel 0 x = 0 := by
    norm_num [lumChannel, jsRound]
  rw [colorLuminance_six ("#000000") x '0' '0' '0' '0' '0' '0' (by decide)]
  have hv : 16 * hexDigVal '0' + hexDigVal '0' = 0 := by decide
  rw [hv, hzero]
  decide

/-- Witness for C6: the six-digit formula at `#336699` and `delta = 1/2`, the
three-digit formula at `#abc`, and the black floor clamp at `x = -1/2`. -/
theorem C6_color_luminance_witness :
    (colorLuminance ("#336699") (1/2) =
      some ((("#" ++ toHex2 (specClampRound (16 * hexDigVal '3' + hexDigVal '3') (1/2)))
        ++ toHex2 (specClampRound (16 * hexDigVal '6' + hexDigVal '6') (1/2)))
        ++ toHex2 (specClampRound (16 * hexDigVal '9' + hexDigVal '9') (1/2)))) ∧
    (colorLuminance ("#abc") (1/2) =
      some ((("#" ++ toHex2 (specClampRound (16 * hexDigVal 'a' + hexDigVal 'a') (1/2)))
        ++ toHex2 (specClampRound (16 * hexDigVal 'b' + hexDigVal 'b') (1/2)))
        ++ toHex2 (specClampRound (16 * hexDigVal 'c' + hexDigVal 'c') (1/2)))) ∧
    colorLuminance ("#000000") (-(1/2)) = some ("#000000") :=
  ⟨C6_color_luminance.2.1 ("#336699") (1/2) '3' '3' '6' '6' '9' '9' (by decide),
    C6_color_luminance.2.2.1 ("#abc") (1/2) 'a' 'b' 'c' (by decide),
    C6_color_luminance.2.2.2.2 (-(1/2)) (by norm_num) (by norm_num)⟩

/-! ### Lemmas about the compositing pass -/

/-- With valid dimensions, the compositing pass issues exactly the background
fill, the optional image composite, the wash, the four optional text blocks
and the optional logo, in order. -/
theorem renderToContext_pos (meas : Measure) (st : RenderState) (W H : ℚ) (f : Fields)
    (h : ¬(W ≤ 0 ∨ H ≤ 0 ∨ st.nativeWidth ≤ 0 ∨ st.nativeHeight ≤ 0 ∨ st.scale ≤ 0)) :
    renderToContext meas st W H f =
      [Op.fillRect f.tint 1 0 0 W H] ++
      (if st.img then [Op.drawImage (8/10) ("multiply") 0 0 W H] else []) ++
      [Op.fillRect f.tint (3/10) 0 0 W H] ++
      (if jsTrim f.title1 = "" then []
        else [Op.text (jsTrim f.title1) (padQ st) (yTitle1 st) ("#ffffff")
          ⟨"900", (fit1 meas st f).size, titleFamilyOf st⟩ "top" (trackQ st)]) ++
      (if jsTrim f.title2 = "" then []
        else [Op.text (jsTrim f.title2) (padQ st) (yAfterTitle1 meas st f) ("#ffffff")
          ⟨"900", (fit2 meas st f).size, titleFamilyOf st⟩ "top" (trackQ st)]) ++
      (if jsTrim f.subtitle = "" then []
        else [Op.text (jsTrim f.subtitle) (padQ st) (yAfterTitle2 meas st f + 48 * st.scale)
          ((colorLuminance ("#ffffff") (-(6/100))).getD ("#ffffff"))
          ⟨"normal", (subFit meas st f).size, bodyFamilyOf st⟩ "alphabetic" 0]) ++
      (if jsTrim f.author = "" then []
        else [Op.text (jsTrim f.author)
          (W - padQ st - meas ⟨"normal", 175 * st.scale, bodyFamilyOf st⟩ (jsTrim f.author))
          (H / 2) ("#ffffff") ⟨"normal", 175 * st.scale, bodyFamilyOf st⟩ "alphabetic" 0]) ++
      (match st.logo with
        | some (lw0, lh0) =>
          [Op.drawLogo (W - 75 * st.scale - lw0 * 1 * st.scale)
            (H - 75 * st.scale - lh0 * 1 * st.scale) (lw0 * 1 * st.scale) (lh0 * 1 * st.scale)]
        | none => []) := by
  rw [renderToContext, if_neg h]

/-! ### Claims about the compositing pass and the export path -/

/-- C4: after a native-resolution export the live scale factor equals its
pre-export value exactly, on the success path and on the injected-failure
path alike (the restoration runs in the `finally`). -/
theorem C4_export_restores_scale (meas : Measure) (st : RenderState) (f : Fields)
    (renderThrows : Bool) :
    (exportAtNativeResolution meas st f renderThrows).1.scale = st.scale := by
  rw [exportAtNativeResolution]
  split
  · rfl
  · cases renderThrows <;> rfl

/-- C5: a compose invocation with any of targetWidth, targetHeight,
nativeWidth, nativeHeight or scale not strictly positive issues no drawing
operation at all; with all five strictly positive it proceeds, starting with
the full-target tint fill. -/
theorem C5_render_guard (meas : Measure) (st : RenderState) (W H : ℚ) (f : Fields) :
    ((W ≤ 0 ∨ H ≤ 0 ∨ st.nativeWidth ≤ 0 ∨ st.nativeHeight ≤ 0 ∨ st.scale ≤ 0) →
      renderToContext meas st W H f = []) ∧
    (0 < W → 0 < H → 0 < st.nativeWidth → 0 < st.nativeHeight → 0 < st.scale →
      ∃ rest, renderToContext meas st W H f = Op.fillRect f.tint 1 0 0 W H :: rest) := by
  constructor
  · intro h
    rw [renderToContext, if_pos h]
  · intro hW hH hnW hnH hs
    rw [renderToContext_pos meas st W H f (by push_neg; exact ⟨hW, hH, hnW, hnH, hs⟩)]
    exact ⟨_, rfl⟩

/-- Witness for C5: a zero-width target renders nothing; a positive target
renders a trace headed by the tint fill. -/
theorem C5_render_guard_witness :
    renderToContext (fun _ _ => 0) ⟨false, none, "", "", 1600, 2560, 1⟩ 0 2560
        ⟨"#123456", "", "", "", ""⟩ = [] ∧
    ∃ rest, renderToContext (fun _ _ => 0) ⟨false, none, "", "", 1600, 2560, 1⟩ 1600 2560
        ⟨"#123456", "", "", "", ""⟩ =
      Op.fillRect ("#123456") 1 0 0 1600 2560 :: rest :=
  ⟨(C5_render_guard (fun _ _ => 0) ⟨false, none, "", "", 1600, 2560, 1⟩ 0 2560
      ⟨"#123456", "", "", "", ""⟩).1 (Or.inl le_rfl),
    (C5_render_guard (fun _ _ => 0) ⟨false, none, "", "", 1600, 2560, 1⟩ 1600 2560
      ⟨"#123456", "", "", "", ""⟩).2 (by norm_num) (by norm_num) (by norm_num) (by norm_num)
      (by norm_num)⟩

/-- C2 (counterexample): with tint `#4488cc` the subtitle is drawn with fill
`#f0f0f0` — the luminance helper applied to the white ink — whereas the tint
lightness-adjusted by −0.06 is `#4080c0`.  The compose pass shown issues
exactly three operations and its only text draw uses `#f0f0f0`. -/
theorem C2_subtitle_fill_cex :
    renderToContext (fun _ _ => 0) ⟨false, none, "", "", 1600, 2560, 1⟩ 1600 2560
        ⟨"#4488cc", "", "", "Sub", ""⟩ =
      [Op.fillRect ("#4488cc") 1 0 0 1600 2560,
        Op.fillRect ("#4488cc") (3/10) 0 0 1600 2560,
        Op.text ("Sub") 128 196 ("#f0f0f0") ⟨"normal", 120, "TrueNo-Book"⟩ "alphabetic" 0] ∧
    colorLuminance ("#4488cc") (-(6/100)) = some ("#4080c0") ∧
    ("#4080c0" : String) ≠ "#f0f0f0" := by
  refine ⟨?_, ?_, by decide⟩
  · rw [renderToContext_pos (fun _ _ => 0) ⟨false, none, "", "", 1600, 2560, 1⟩ 1600 2560
      ⟨"#4488cc", "", "", "Sub", ""⟩ (by push_neg; norm_num)]
    have ht : jsTrim ("") = "" := by decide
    have hsub : jsTrim ("Sub") = "Sub" := by decide
    have hdim : (colorLuminance ("#ffffff") (-(6/100))).getD ("#ffffff") = "#f0f0f0" := by
      rw [colorLuminance_white_dim]
      rfl
    have hpad : padQ ⟨false, none, "", "", 1600, 2560, 1⟩ = 128 := by
      norm_num [padQ, nativePadQ, jsRound]
    have hy : yAfterTitle2 (fun _ _ => 0) ⟨false, none, "", "", 1600, 2560, 1⟩
        ⟨"#4488cc", "", "", "Sub", ""⟩ = 148 := by
      rw [yAfterTitle2, yAfterTitle1]
      norm_num [ht, yTitle1, hpad]
    have hfit : subFit (fun _ _ => 0) ⟨false, none, "", "", 1600, 2560, 1⟩
        ⟨"#4488cc", "", "", "Sub", ""⟩ = ⟨120, 0⟩ := by
      rw [subFit]
      rw [fitText_fits _ _ _ _ _ _ _ _
        (by norm_num [fitMeasureAt, measureWithTrackingForContext, colWQ, nativePadQ, jsRound])]
      norm_num [fitMeasureAt, measureWithTrackingForContext]
    simp only [ht, hsub, hdim, hpad, hy, hfit]
    norm_num [bodyFamilyOf]
    decide
  · rw [colorLuminance_six ("#4488cc") (-(6/100)) '4' '4' '8' '8' 'c' 'c' (by decide)]
    have h68 : lumChannel (16 * hexDigVal '4' + hexDigVal '4') (-(6/100)) = 64 := by
      have hv : 16 * hexDigVal '4' + hexDigVal '4' = 68 := by decide
      rw [hv]
      norm_num [lumChannel, jsRound]
      decide
    have h136 : lumChannel (16 * hexDigVal '8' + hexDigVal '8') (-(6/100)) = 128 := by
      have hv : 16 * hexDigVal '8' + hexDigVal '8' = 136 := by decide
      rw [hv]
      norm_num [lumChannel, jsRound]
      decide
    have h204 : lumChannel (16 * hexDigVal 'c' + hexDigVal 'c') (-(6/100)) = 192 := by
      have hv : 16 * hexDigVal 'c' + hexDigVal 'c' = 204 := by decide
      rw [hv]
      norm_num [lumChannel, jsRound]
      decide
    rw [h68, h136, h204]
    decide

/-- C2 (amended): when the subtitle field trims non-empty, the compositor
draws the subtitle with fill color equal to the white ink `#ffffff`
lightness-adjusted by −0.06 via the luminance helper — the constant
`#f0f0f0`, independent of the tint. -/
theorem C2_subtitle_fill (meas : Measure) (st : RenderState) (W H : ℚ) (f : Fields)
    (hW : 0 < W) (hH : 0 < H) (hnW : 0 < st.nativeWidth) (hnH : 0 < st.nativeHeight)
    (hs : 0 < st.scale) (hsub : jsTrim f.subtitle ≠ "") :
    Op.text (jsTrim f.subtitle) (padQ st) (yAfterTitle2 meas st f + 48 * st.scale)
        ("#f0f0f0") ⟨"normal", (subFit meas st f).size, bodyFamilyOf st⟩ "alphabetic" 0 ∈
      renderToContext meas st W H f ∧
    (colorLuminance ("#ffffff") (-(6/100))).getD ("#ffffff") = "#f0f0f0" := by
  have hdim : (colorLuminance ("#ffffff") (-(6/100))).getD ("#ffffff") = "#f0f0f0" := by
    rw [colorLuminance_white_dim]
    rfl
  refine ⟨?_, hdim⟩
  rw [renderToContext_pos meas st W H f (by push_neg; exact ⟨hW, hH, hnW, hnH, hs⟩)]
  simp only [List.mem_append, List.mem_singleton, if_neg hsub, hdim]
  tauto

/-- Witness for C2: the amended statement at a concrete compose pass. -/
theorem C2_subtitle_fill_witness :
    Op.text (jsTrim ("Sub")) (padQ ⟨false, none, "", "", 1600, 2560, 1⟩)
        (yAfterTitle2 (fun _ _ => 0) ⟨false, none, "", "", 1600, 2560, 1⟩
            ⟨"#123456", "", "", "Sub", ""⟩ + 48 * 1)
        ("#f0f0f0")
        ⟨"normal", (subFit (fun _ _ => 0) ⟨false, none, "", "", 1600, 2560, 1⟩
            ⟨"#123456", "", "", "Sub", ""⟩).size, bodyFamilyOf ⟨false, none, "", "", 1600, 2560, 1⟩⟩
        "alphabetic" 0 ∈
      renderToContext (fun _ _ => 0) ⟨false, none, "", "", 1600, 2560, 1⟩ 1600 2560
        ⟨"#123456", "", "", "Sub", ""⟩ ∧
    (colorLuminance ("#ffffff") (-(6/100))).getD ("#ffffff") = "#f0f0f0" :=
  C2_subtitle_fill (fun _ _ => 0) ⟨false, none, "", "", 1600, 2560, 1⟩ 1600 2560
    ⟨"#123456", "", "", "Sub", ""⟩ (by norm_num) (by norm_num) (by norm_num) (by norm_num)
    (by norm_num) (by decide)

/-- C7 (counterexample): the resolved size for title line 2 can fall strictly
below the line-1 size cap.  At scale 1/100 the cap is `titleMax = 2.6`, the
title-2 maximum is `Math.round(7.8) = 8`, and with text that never fits the
loop steps 8 → 6 → 4 → 2, returning 2 < 2.6. -/
theorem C7_title2_min_cex :
    (fit2 (fun _ _ => 1000000) ⟨false, none, "", "", 1600, 2560, 1/100⟩
        ⟨"", "", "X", "", ""⟩).size <
      titleMaxQ ⟨false, none, "", "", 1600, 2560, 1/100⟩ := by
  have hX : jsTrim ("X") = "X" := by decide
  have hlen : ("X" : String).length = 1 := by decide
  have hcol : colWQ ⟨false, none, "", "", 1600, 2560, 1/100⟩ = 336/25 := by
    norm_num [colWQ, nativePadQ, jsRound]
  have htm : titleMaxQ ⟨false, none, "", "", 1600, 2560, 1/100⟩ = 13/5 := by
    norm_num [titleMaxQ]
  have hmeas : ∀ s : ℚ, fitMeasureAt (fun _ _ => 1000000)
      (titleFamilyOf ⟨false, none, "", "", 1600, 2560, 1/100⟩) ("900") ("X")
      (trackQ ⟨false, none, "", "", 1600, 2560, 1/100⟩) s = 1000000 := fun s => by
    norm_num [fitMeasureAt, measureWithTrackingForContext, trackQ, hlen]
  have hmax : ((jsRound (titleMaxQ ⟨false, none, "", "", 1600, 2560, 1/100⟩ * 3) : ℤ) : ℚ) =
      8 := by
    rw [htm]
    norm_num [jsRound]
  rw [fit2]
  simp only [hX]
  rw [hmax, htm, hcol, fitTextForContext]
  simp only [hmeas]
  rw [fitGo, dif_pos (by norm_num)]
  simp only [hmeas]
  rw [fitGo, dif_pos (by norm_num)]
  simp only [hmeas]
  rw [fitGo, dif_pos (by norm_num)]
  simp only [hmeas]
  rw [fitGo_exit _ _ _ _ _ _ (Or.inr (by norm_num))]
  norm_num

/-- C7 (amended): when title line 2 trims non-empty the compositor fits it in
the same column width as line 1 with maximum size `Math.round(3 × titleMax)`
and minimum size `titleMax` (the line-1 cap), and draws it at the advanced
cursor; the resolved size never exceeds that rounded maximum and never falls
to `titleMax - 2` or below — it can undershoot the cap itself by less than
one step — and afterwards the cursor advances by 0.9× the resolved size plus
an 18-unit gap (scaled). -/
theorem C7_title2_layout (meas : Measure) (st : RenderState) (W H : ℚ) (f : Fields)
    (hW : 0 < W) (hH : 0 < H) (hnW : 0 < st.nativeWidth) (hnH : 0 < st.nativeHeight)
    (hs : 0 < st.scale) (ht2 : jsTrim f.title2 ≠ "") :
    fit2 meas st f =
      fitTextForContext meas (jsTrim f.title2) (colWQ st)
        ((jsRound (titleMaxQ st * 3) : ℤ) : ℚ) (titleMaxQ st) (titleFamilyOf st) ("900")
        (trackQ st) ∧
    Op.text (jsTrim f.title2) (padQ st) (yAfterTitle1 meas st f) ("#ffffff")
        ⟨"900", (fit2 meas st f).size, titleFamilyOf st⟩ "top" (trackQ st) ∈
      renderToContext meas st W H f ∧
    titleMaxQ st - 2 < (fit2 meas st f).size ∧
    (fit2 meas st f).size ≤ ((jsRound (titleMaxQ st * 3) : ℤ) : ℚ) ∧
    yAfterTitle2 meas st f =
      yAfterTitle1 meas st f + (fit2 meas st f).size * (9/10) + 18 * st.scale := by
  refine ⟨rfl, ?_, ?_, ?_, ?_⟩
  · rw [renderToContext_pos meas st W H f (by push_neg; exact ⟨hW, hH, hnW, hnH, hs⟩)]
    simp only [List.mem_append, List.mem_singleton, if_neg ht2]
    tauto
  · have hjr : titleMaxQ st * 3 - 1/2 < ((jsRound (titleMaxQ st * 3) : ℤ) : ℚ) := by
      rw [jsRound]
      have hfl := Int.sub_one_lt_floor (titleMaxQ st * 3 + 1/2)
      push_cast at hfl ⊢
      linarith
    have hcap : (0 : ℚ) < titleMaxQ st := by
      rw [titleMaxQ]
      positivity
    rw [fit2]
    exact fitText_above_floor_step meas (jsTrim f.title2) (colWQ st) _ (titleMaxQ st)
      (titleFamilyOf st) ("900") (trackQ st) (by linarith)
  · rw [fit2]
    exact fitText_size_le meas (jsTrim f.title2) (colWQ st) _ (titleMaxQ st)
      (titleFamilyOf st) ("900") (trackQ st)
  · rw [yAfterTitle2, if_neg ht2]

/-- Witness for C7: the amended statement at a concrete compose pass. -/
theorem C7_title2_layout_witness :
    Op.text (jsTrim ("Big")) (padQ ⟨false, none, "", "", 1600, 2560, 1⟩)
        (yAfterTitle1 (fun _ _ => 0) ⟨false, none, "", "", 1600, 2560, 1⟩
          ⟨"#123456", "", "Big", "", ""⟩) ("#ffffff")
        ⟨"900", (fit2 (fun _ _ => 0) ⟨false, none, "", "", 1600, 2560, 1⟩
          ⟨"#123456", "", "Big", "", ""⟩).size,
          titleFamilyOf ⟨false, none, "", "", 1600, 2560, 1⟩⟩ "top"
        (trackQ ⟨false, none, "", "", 1600, 2560, 1⟩) ∈
      renderToContext (fun _ _ => 0) ⟨false, none, "", "", 1600, 2560, 1⟩ 1600 2560
        ⟨"#123456", "", "Big", "", ""⟩ ∧
    titleMaxQ ⟨false, none, "", "", 1600, 2560, 1⟩ - 2 <
      (fit2 (fun _ _ => 0) ⟨false, none, "", "", 1600, 2560, 1⟩
        ⟨"#123456", "", "Big", "", ""⟩).size :=
  ⟨(C7_title2_layout (fun _ _ => 0) ⟨false, none, "", "", 1600, 2560, 1⟩ 1600 2560
      ⟨"#123456", "", "Big", "", ""⟩ (by norm_num) (by norm_num) (by norm_num) (by norm_num)
      (by norm_num) (by decide)).2.1,
    (C7_title2_layout (fun _ _ => 0) ⟨false, none, "", "", 1600, 2560, 1⟩ 1600 2560
      ⟨"#123456", "", "Big", "", ""⟩ (by norm_num) (by norm_num) (by norm_num) (by norm_num)
      (by norm_num) (by decide)).2.2.1⟩

/-- C10: in a compose pass with valid dimensions and a non-empty title line 1,
the vertical cursor for the first text block starts at `pad + 20·scale` where
`pad = round(0.08·nativeWidth)·scale`, and title line 1's top baseline is drawn
exactly there — a fixed 20-native-unit top offset below the horizontal
padding. -/
theorem C10_first_text_cursor (meas : Measure) (st : RenderState) (W H : ℚ) (f : Fields)
    (hW : 0 < W) (hH : 0 < H) (hnW : 0 < st.nativeWidth) (hnH : 0 < st.nativeHeight)
    (hs : 0 < st.scale) (ht1 : jsTrim f.title1 ≠ "") :
    yTitle1 st = ((jsRound (st.nativeWidth * (8/100)) : ℤ) : ℚ) * st.scale + 20 * st.scale ∧
    Op.text (jsTrim f.title1) (padQ st) (yTitle1 st) ("#ffffff")
        ⟨"900", (fit1 meas st f).size, titleFamilyOf st⟩ "top" (trackQ st) ∈
      renderToContext meas st W H f := by
  refine ⟨rfl, ?_⟩
  rw [renderToContext_pos meas st W H f (by push_neg; exact ⟨hW, hH, hnW, hnH, hs⟩)]
  simp only [List.mem_append, List.mem_singleton, if_neg ht1]
  tauto

/-- Witness for C10: the cursor formula and the title-1 draw at a concrete
compose pass. -/
theorem C10_first_text_cursor_witness :
    yTitle1 ⟨false, none, "", "", 1600, 2560, 1⟩ =
      ((jsRound ((1600 : ℚ) * (8/100)) : ℤ) : ℚ) * 1 + 20 * 1 ∧
    Op.text (jsTrim ("T")) (padQ ⟨false, none, "", "", 1600, 2560, 1⟩)
        (yTitle1 ⟨false, none, "", "", 1600, 2560, 1⟩) ("#ffffff")
        ⟨"900", (fit1 (fun _ _ => 0) ⟨false, none, "", "", 1600, 2560, 1⟩
          ⟨"#123456", "T", "", "", ""⟩).size,
          titleFamilyOf ⟨false, none, "", "", 1600, 2560, 1⟩⟩ "top"
        (trackQ ⟨false, none, "", "", 1600, 2560, 1⟩) ∈
      renderToContext (fun _ _ => 0) ⟨false, none, "", "", 1600, 2560, 1⟩ 1600 2560
        ⟨"#123456", "T", "", "", ""⟩ :=
  C10_first_text_cursor (fun _ _ => 0) ⟨false, none, "", "", 1600, 2560, 1⟩ 1600 2560
    ⟨"#123456", "T", "", "", ""⟩ (by norm_num) (by norm_num) (by norm_num) (by norm_num)
    (by norm_num) (by decide)

end Covers
